import Mathlib

/-!
Shallow embedding of the irradiance-to-power pipeline of the
fmi-open-pv-forecast repository.

The embedding covers:
* config.py — the Config class (installation parameters);
* helpers/astronomical_calculations.py — solar angle functions;
* helpers/irradiance_transpositions.py — the POA projection functions and
  the orchestrator irradiance_df_to_poa_df;
* main.py — get_fmi_data and get_pvlib_data (configuration save/restore
  and NaN-row handling).

External collaborators (pvlib solar position, pvlib irradiance.aoi,
get_extra_radiation, relative air mass, the Perez sky-diffuse model, and
the repository modules not present in the sources such as the reflection,
temperature and output estimators) are modelled as oracle parameters:
uninterpreted functions quantified over in the theorems, so every proved
statement holds for every possible behaviour of those collaborators.

Machine floats are modelled by real numbers; where NaN propagation is the
question, values are modelled as Option by reals with none standing for NaN.
-/

namespace PVForecast

/-- Installation configuration, embedding the Config class of config.py.
Numeric simulation fields only; plotting/IO toggles are irrelevant to the
pipeline claims. data_resolution is the minutes-between-rows field that
get_fmi_data temporarily overrides. -/
structure Config where
  latitude : ℝ
  longitude : ℝ
  tilt : ℝ
  azimuth : ℝ
  rated_power : ℝ
  albedo : ℝ
  module_elevation : ℝ
  wind_speed : ℝ
  air_temp : ℝ
  data_resolution : ℕ

/-- Default parameter values from config.py (class attributes of Config). -/
noncomputable def cfgDefault : Config :=
  { latitude := 60.2044
    longitude := 24.9625
    tilt := 15
    azimuth := 135
    rated_power := 21
    albedo := 0.151
    module_elevation := 8
    wind_speed := 2
    air_temp := 20
    data_resolution := 60 }

/-- Oracle bundle for the external pvlib library functions used by the
astronomical and transposition helpers.  Each field is an uninterpreted
function standing for the named pvlib entry point; timestamps are abstract
integers. -/
structure Pvlib where
  solarPosition : ℝ → ℝ → ℤ → ℝ × ℝ
  aoi : ℝ → ℝ → ℝ → ℝ → ℝ
  getExtraRadiation : ℤ → ℝ
  relativeAirmass : ℝ → ℝ
  perez : ℝ → ℝ → ℝ → ℝ → ℝ → ℝ → ℝ → ℝ → ℝ

/-- numpy.radians: degrees to radians. -/
noncomputable def radians (x : ℝ) : ℝ := x * Real.pi / 180

/-- pandas Series.clip(lower=0, upper=90) applied to one element:
values below 0 are raised to 0 and values above 90 lowered to 90. -/
def clip0to90 (x : ℝ) : ℝ := min (max x 0) 90

/-- astronomical_calculations.get_solar_azimuth_zenit_fast: builds a pvlib
Location from the configured coordinates and returns the pair
(solar_azimuth, solar_apparent_zenith) from pvlib get_solarposition. -/
def get_solar_azimuth_zenit_fast (pv : Pvlib) (cfg : Config) (dt : ℤ) : ℝ × ℝ :=
  pv.solarPosition cfg.latitude cfg.longitude dt

/-- astronomical_calculations.get_solar_angle_of_incidence_fast: the raw
pvlib irradiance.aoi value for panel tilt/azimuth and the solar
apparent-zenith/azimuth at dt, clipped to lower=0, upper=90. -/
def get_solar_angle_of_incidence_fast (pv : Pvlib) (cfg : Config) (dt : ℤ) : ℝ :=
  let az_zen := get_solar_azimuth_zenit_fast pv cfg dt
  clip0to90 (pv.aoi cfg.tilt cfg.azimuth az_zen.2 az_zen.1)

/-- astronomical_calculations.get_air_mass_fast: relative air mass from the
solar apparent zenith at dt. -/
def get_air_mass_fast (pv : Pvlib) (cfg : Config) (dt : ℤ) : ℝ :=
  pv.relativeAirmass (get_solar_azimuth_zenit_fast pv cfg dt).2

/-- irradiance_transpositions.__project_dni_to_panel_surface_using_angle:
dni * cos(radians(angle_of_incidence)). -/
noncomputable def project_dni_to_panel_surface_using_angle (dni aoi : ℝ) : ℝ :=
  dni * Real.cos (radians aoi)

/-- irradiance_transpositions.__project_dni_to_panel_surface_using_time_fast:
numpy.abs of the angle-based projection taken at the clipped angle of
incidence for the instant dt. -/
noncomputable def project_dni_to_panel_surface_using_time_fast
    (pv : Pvlib) (cfg : Config) (dni : ℝ) (dt : ℤ) : ℝ :=
  |project_dni_to_panel_surface_using_angle dni
    (get_solar_angle_of_incidence_fast pv cfg dt)|

/-- irradiance_transpositions.__project_dhi_to_panel_surface: the isotropic
sky model dhi * ((1 + cos(radians(tilt))) / 2). -/
noncomputable def project_dhi_to_panel_surface (cfg : Config) (dhi : ℝ) : ℝ :=
  dhi * ((1.0 + Real.cos (radians cfg.tilt)) / 2.0)

/-- irradiance_transpositions.__project_dhi_to_panel_surface_perez_fast:
the pvlib Perez model applied to surface tilt/azimuth, dhi, dni,
extraterrestrial irradiance for the instant, solar zenith, solar azimuth
and air mass. -/
def project_dhi_to_panel_surface_perez_fast
    (pv : Pvlib) (cfg : Config) (time : ℤ) (dhi dni : ℝ) : ℝ :=
  let dni_extra := pv.getExtraRadiation time
  let surface_tilt := cfg.tilt
  let surface_azimuth := cfg.azimuth
  let az_zen := get_solar_azimuth_zenit_fast pv cfg time
  let airmass := get_air_mass_fast pv cfg time
  pv.perez surface_tilt surface_azimuth dhi dni dni_extra az_zen.2 az_zen.1 airmass

/-- irradiance_transpositions.__project_ghi_to_panel_surface:
step1 = (1 - cos(radians(tilt))) / 2, step2 = ghi * albedo * step1. -/
noncomputable def project_ghi_to_panel_surface (ghi albedo tilt : ℝ) : ℝ :=
  let step1 := (1.0 - Real.cos (radians tilt)) / 2
  let step2 := ghi * albedo * step1
  step2

/-- Claim C3: for every instant and every panel tilt/azimuth in the
configuration (and every behaviour of the raw pvlib aoi computation), the
value returned by get_solar_angle_of_incidence_fast lies in the closed
interval from 0 to 90 degrees: the raw angle is clipped to lower bound 0
and upper bound 90. -/
theorem aoi_fast_mem_zero_ninety (pv : Pvlib) (cfg : Config) (dt : ℤ) :
    0 ≤ get_solar_angle_of_incidence_fast pv cfg dt ∧
      get_solar_angle_of_incidence_fast pv cfg dt ≤ 90 := by
  unfold get_solar_angle_of_incidence_fast clip0to90
  constructor
  · exact le_min (le_max_right _ _) (by norm_num)
  · exact min_le_right _ _

/-- Claim C2: for every dni value and every instant (and every behaviour of
the external solar-position and aoi collaborators), the direct
plane-of-array projection produced by
project_dni_to_panel_surface_using_time_fast equals the absolute value of
dni times the cosine of the clipped angle of incidence in radians. -/
theorem dni_poa_eq_abs_dni_cos_clipped_aoi
    (pv : Pvlib) (cfg : Config) (dni : ℝ) (dt : ℤ) :
    project_dni_to_panel_surface_using_time_fast pv cfg dni dt =
      |dni * Real.cos (radians (clip0to90 (pv.aoi cfg.tilt cfg.azimuth
        (get_solar_azimuth_zenit_fast pv cfg dt).2
        (get_solar_azimuth_zenit_fast pv cfg dt).1)))| := rfl

/-- One row of the input irradiance dataframe handed to
irradiance_df_to_poa_df: timestamp index value, the three irradiance
components, the optional per-row albedo value (meaningful only when the
dataframe has an albedo column) and the pre-existing weather columns
carried through from the data source. -/
structure IrrRow where
  t : ℤ
  dni : ℝ
  dhi : ℝ
  ghi : ℝ
  albedo : ℝ
  T : ℝ
  wind : ℝ
  cloud_cover : ℝ

/-- Input irradiance dataframe: its rows in index order plus the flag
recording whether the string albedo is among its columns (the test on
line 61 of irradiance_transpositions.py). -/
structure IrrDF where
  rows : List IrrRow
  hasAlbedo : Bool

/-- One row of the dataframe after irradiance_df_to_poa_df: all input
fields plus the four added columns. -/
structure PoaRow where
  t : ℤ
  dni : ℝ
  dhi : ℝ
  ghi : ℝ
  albedo : ℝ
  T : ℝ
  wind : ℝ
  cloud_cover : ℝ
  dni_poa : ℝ
  dhi_poa : ℝ
  ghi_poa : ℝ
  poa : ℝ

/-- Output dataframe of irradiance_df_to_poa_df. -/
structure PoaDF where
  rows : List PoaRow
  hasAlbedo : Bool

/-- Default input row used as the out-of-range fallback of List.getD. -/
def irDefault : IrrRow :=
  { t := 0, dni := 0, dhi := 0, ghi := 0, albedo := 0, T := 0, wind := 0, cloud_cover := 0 }

/-- Default output row used as the out-of-range fallback of List.getD. -/
def poaDefault : PoaRow :=
  { t := 0, dni := 0, dhi := 0, ghi := 0, albedo := 0, T := 0, wind := 0, cloud_cover := 0,
    dni_poa := 0, dhi_poa := 0, ghi_poa := 0, poa := 0 }

/-- Dataflow of irradiance_transpositions.irradiance_df_to_poa_df
(lines 43-69): per row, dni_poa from the time-based direct projection,
dhi_poa from the Perez projection, ghi_poa from the ground-reflected
projection using the per-row albedo when the albedo column is present and
the configured albedo otherwise, and poa as the sum
dhi_poa + dni_poa + ghi_poa written last; all input columns are carried
over unchanged. -/
noncomputable def irradiance_df_to_poa_df (pv : Pvlib) (cfg : Config) (df : IrrDF) : PoaDF :=
  { rows := df.rows.map (fun r =>
      let dni_poa := project_dni_to_panel_surface_using_time_fast pv cfg r.dni r.t
      let dhi_poa := project_dhi_to_panel_surface_perez_fast pv cfg r.t r.dhi r.dni
      let ghi_poa :=
        if df.hasAlbedo then project_ghi_to_panel_surface r.ghi r.albedo cfg.tilt
        else project_ghi_to_panel_surface r.ghi cfg.albedo cfg.tilt
      { t := r.t, dni := r.dni, dhi := r.dhi, ghi := r.ghi, albedo := r.albedo,
        T := r.T, wind := r.wind, cloud_cover := r.cloud_cover,
        dni_poa := dni_poa, dhi_poa := dhi_poa, ghi_poa := ghi_poa,
        poa := dhi_poa + dni_poa + ghi_poa })
    hasAlbedo := df.hasAlbedo }

/-- In-range List.getD of a mapped list is the function applied to the
getD of the original list. -/
theorem getD_map_of_lt {α β : Type} (f : α → β) (l : List α) (i : ℕ)
    (h : i < l.length) (d : β) (d0 : α) :
    (l.map f).getD i d = f (l.getD i d0) := by
  have hm : i < (l.map f).length := by simpa using h
  rw [List.getD_eq_getElem?_getD, List.getD_eq_getElem?_getD,
    List.getElem?_eq_getElem hm, List.getElem?_eq_getElem h]
  simp

/-- Constant oracle used by concrete witnesses: every external pvlib
function returns zero. -/
def pvZero : Pvlib :=
  { solarPosition := fun _ _ _ => (0, 0)
    aoi := fun _ _ _ _ => 0
    getExtraRadiation := fun _ => 0
    relativeAirmass := fun _ => 0
    perez := fun _ _ _ _ _ _ _ _ => 0 }

/-- Concrete one-row input dataframe with an albedo column, used by
witnesses. -/
def dfAlbedoOneRow : IrrDF :=
  { rows := [{ t := 0, dni := 100, dhi := 50, ghi := 200, albedo := 0.3,
               T := 10, wind := 3, cloud_cover := 40 }]
    hasAlbedo := true }

/-- Claim C4: the ground-reflected projection equals
ghi * albedo * (1 - cos(radians tilt)) / 2; at ghi=1000, albedo=0.2,
tilt=30 the value is within 0.01 of 13.4; and the ghi_poa column written
by irradiance_df_to_poa_df uses the per-row albedo value when the albedo
column is present in the input dataframe and the configured static albedo
otherwise. -/
theorem ghi_poa_formula_scenario_and_albedo_choice :
    (∀ ghi albedo tilt : ℝ,
      project_ghi_to_panel_surface ghi albedo tilt
        = ghi * albedo * (1 - Real.cos (radians tilt)) / 2) ∧
    |project_ghi_to_panel_surface 1000 0.2 30 - 13.4| < 0.01 ∧
    (∀ (pv : Pvlib) (cfg : Config) (df : IrrDF) (i : ℕ), i < df.rows.length →
      ((irradiance_df_to_poa_df pv cfg df).rows.getD i poaDefault).ghi_poa
        = project_ghi_to_panel_surface (df.rows.getD i irDefault).ghi
            (if df.hasAlbedo then (df.rows.getD i irDefault).albedo else cfg.albedo)
            cfg.tilt) := by
  refine ⟨?_, ?_, ?_⟩
  · intro ghi albedo tilt
    unfold project_ghi_to_panel_surface
    ring
  · unfold project_ghi_to_panel_surface radians
    have h30 : (30 : ℝ) * Real.pi / 180 = Real.pi / 6 := by ring
    rw [h30, Real.cos_pi_div_six]
    have hs : Real.sqrt 3 ^ 2 = 3 := Real.sq_sqrt (by norm_num)
    have hnn : 0 ≤ Real.sqrt 3 := Real.sqrt_nonneg 3
    rw [abs_sub_lt_iff]
    constructor <;> nlinarith [hs, hnn]
  · intro pv cfg df i h
    unfold irradiance_df_to_poa_df
    rw [getD_map_of_lt _ _ _ h _ irDefault]
    by_cases hab : df.hasAlbedo <;> simp [hab]

/-- Witness for claim C4: the albedo-column branch and formula evaluated on
the concrete one-row dataframe dfAlbedoOneRow. -/
theorem ghi_poa_formula_scenario_and_albedo_choice_witness :
    0 < dfAlbedoOneRow.rows.length ∧
    ((irradiance_df_to_poa_df pvZero cfgDefault dfAlbedoOneRow).rows.getD 0 poaDefault).ghi_poa
      = project_ghi_to_panel_surface (dfAlbedoOneRow.rows.getD 0 irDefault).ghi
          (if dfAlbedoOneRow.hasAlbedo then (dfAlbedoOneRow.rows.getD 0 irDefault).albedo
           else cfgDefault.albedo)
          cfgDefault.tilt :=
  ⟨by simp [dfAlbedoOneRow],
   ghi_poa_formula_scenario_and_albedo_choice.2.2 pvZero cfgDefault dfAlbedoOneRow 0
     (by simp [dfAlbedoOneRow])⟩

/-- Claim C5: for every row whose dni, dhi, ghi are non-negative and with
the configured tilt in the interval from 0 to 90, if the albedo factor the
code selects for the row is non-negative (the data model bounds albedo to
the unit interval) and the external Perez collaborator returns
non-negative sky diffuse for non-negative dhi and dni (as the pvlib model
does), then the three projected components written by
irradiance_df_to_poa_df are each non-negative, and the poa column equals
exactly the sum of the three component columns. -/
theorem poa_components_nonneg_and_poa_sum
    (pv : Pvlib) (cfg : Config) (df : IrrDF) (i : ℕ)
    (hi : i < df.rows.length)
    (hperez : ∀ st sa dhi dni ex ze az am, 0 ≤ dhi → 0 ≤ dni →
      0 ≤ pv.perez st sa dhi dni ex ze az am)
    (hdni : 0 ≤ (df.rows.getD i irDefault).dni)
    (hdhi : 0 ≤ (df.rows.getD i irDefault).dhi)
    (hghi : 0 ≤ (df.rows.getD i irDefault).ghi)
    (htilt0 : 0 ≤ cfg.tilt) (htilt90 : cfg.tilt ≤ 90)
    (halb : 0 ≤ (if df.hasAlbedo then (df.rows.getD i irDefault).albedo else cfg.albedo)) :
    0 ≤ ((irradiance_df_to_poa_df pv cfg df).rows.getD i poaDefault).dni_poa ∧
    0 ≤ ((irradiance_df_to_poa_df pv cfg df).rows.getD i poaDefault).dhi_poa ∧
    0 ≤ ((irradiance_df_to_poa_df pv cfg df).rows.getD i poaDefault).ghi_poa ∧
    ((irradiance_df_to_poa_df pv cfg df).rows.getD i poaDefault).poa
      = ((irradiance_df_to_poa_df pv cfg df).rows.getD i poaDefault).dni_poa
        + ((irradiance_df_to_poa_df pv cfg df).rows.getD i poaDefault).dhi_poa
        + ((irradiance_df_to_poa_df pv cfg df).rows.getD i poaDefault).ghi_poa := by
  unfold irradiance_df_to_poa_df
  rw [getD_map_of_lt _ _ _ hi _ irDefault]
  have hcos : Real.cos (radians cfg.tilt) ≤ 1 := Real.cos_le_one _
  have hghi_nonneg : ∀ alb : ℝ, 0 ≤ alb →
      0 ≤ project_ghi_to_panel_surface (df.rows.getD i irDefault).ghi alb cfg.tilt := by
    intro alb halb'
    unfold project_ghi_to_panel_surface
    have : (0 : ℝ) ≤ (1.0 - Real.cos (radians cfg.tilt)) / 2 := by nlinarith
    exact mul_nonneg (mul_nonneg hghi halb') this
  refine ⟨abs_nonneg _, ?_, ?_, by simp; ring⟩
  · exact hperez _ _ _ _ _ _ _ _ hdhi hdni
  · by_cases hab : df.hasAlbedo
    · simp only [hab, if_true]
      exact hghi_nonneg _ (by simpa [hab] using halb)
    · simp only [hab, if_false]
      exact hghi_nonneg _ (by simpa [hab] using halb)

/-- Witness for claim C5: the non-negativity and sum facts instantiated on
the concrete dataframe dfAlbedoOneRow with the all-zero pvlib oracle. -/
theorem poa_components_nonneg_and_poa_sum_witness :
    (0 : ℝ) ≤ (dfAlbedoOneRow.rows.getD 0 irDefault).dni ∧
    (0 ≤ ((irradiance_df_to_poa_df pvZero cfgDefault dfAlbedoOneRow).rows.getD 0 poaDefault).dni_poa ∧
     0 ≤ ((irradiance_df_to_poa_df pvZero cfgDefault dfAlbedoOneRow).rows.getD 0 poaDefault).dhi_poa ∧
     0 ≤ ((irradiance_df_to_poa_df pvZero cfgDefault dfAlbedoOneRow).rows.getD 0 poaDefault).ghi_poa ∧
     ((irradiance_df_to_poa_df pvZero cfgDefault dfAlbedoOneRow).rows.getD 0 poaDefault).poa
       = ((irradiance_df_to_poa_df pvZero cfgDefault dfAlbedoOneRow).rows.getD 0 poaDefault).dni_poa
         + ((irradiance_df_to_poa_df pvZero cfgDefault dfAlbedoOneRow).rows.getD 0 poaDefault).dhi_poa
         + ((irradiance_df_to_poa_df pvZero cfgDefault dfAlbedoOneRow).rows.getD 0 poaDefault).ghi_poa) :=
  ⟨by norm_num [dfAlbedoOneRow, irDefault],
   poa_components_nonneg_and_poa_sum pvZero cfgDefault dfAlbedoOneRow 0
     (by simp [dfAlbedoOneRow])
     (by intro st sa dhi dni ex ze az am h1 h2; simp [pvZero])
     (by norm_num [dfAlbedoOneRow, irDefault])
     (by norm_num [dfAlbedoOneRow, irDefault])
     (by norm_num [dfAlbedoOneRow, irDefault])
     (by norm_num [cfgDefault])
     (by norm_num [cfgDefault])
     (by norm_num [dfAlbedoOneRow, irDefault])⟩

/-- Configuration with flat panel tilt, used to separate the Perez column
from the isotropic simplification. -/
noncomputable def cfgTilt0 : Config := { cfgDefault with tilt := 0 }

/-- Oracle whose Perez model returns the constant 42, used to separate the
Perez column from the isotropic simplification. -/
def pvPerez42 : Pvlib := { pvZero with perez := fun _ _ _ _ _ _ _ _ => 42 }

/-- Claim C7: the dhi_poa column written by irradiance_df_to_poa_df is, for
every input dataframe and every row, the value of the Perez-model function
project_dhi_to_panel_surface_perez_fast (which feeds extraterrestrial
irradiance, solar zenith, solar azimuth and air mass to the pvlib Perez
oracle); and it is not the isotropic-sky simplification: on a concrete
input the written column differs from project_dhi_to_panel_surface. -/
theorem dhi_poa_via_perez_not_isotropic :
    (∀ (pv : Pvlib) (cfg : Config) (df : IrrDF) (i : ℕ), i < df.rows.length →
      ((irradiance_df_to_poa_df pv cfg df).rows.getD i poaDefault).dhi_poa
        = project_dhi_to_panel_surface_perez_fast pv cfg
            (df.rows.getD i irDefault).t (df.rows.getD i irDefault).dhi
            (df.rows.getD i irDefault).dni) ∧
    ((irradiance_df_to_poa_df pvPerez42 cfgTilt0 dfAlbedoOneRow).rows.getD 0 poaDefault).dhi_poa
      ≠ project_dhi_to_panel_surface cfgTilt0 (dfAlbedoOneRow.rows.getD 0 irDefault).dhi := by
  constructor
  · intro pv cfg df i h
    unfold irradiance_df_to_poa_df
    rw [getD_map_of_lt _ _ _ h _ irDefault]
  · have hlhs :
        ((irradiance_df_to_poa_df pvPerez42 cfgTilt0 dfAlbedoOneRow).rows.getD 0 poaDefault).dhi_poa
          = 42 := by
      simp [irradiance_df_to_poa_df, dfAlbedoOneRow,
        project_dhi_to_panel_surface_perez_fast, pvPerez42, pvZero]
    have hrhs :
        project_dhi_to_panel_surface cfgTilt0 (dfAlbedoOneRow.rows.getD 0 irDefault).dhi = 50 := by
      have ht : cfgTilt0.tilt = 0 := by simp [cfgTilt0]
      unfold project_dhi_to_panel_surface radians
      rw [ht]
      norm_num [dfAlbedoOneRow, irDefault, Real.cos_zero]
    rw [hlhs, hrhs]
    norm_num

/-- Witness for claim C7: the Perez-column identity instantiated on the
concrete dataframe dfAlbedoOneRow with the constant-42 Perez oracle. -/
theorem dhi_poa_via_perez_not_isotropic_witness :
    0 < dfAlbedoOneRow.rows.length ∧
    ((irradiance_df_to_poa_df pvPerez42 cfgTilt0 dfAlbedoOneRow).rows.getD 0 poaDefault).dhi_poa
      = project_dhi_to_panel_surface_perez_fast pvPerez42 cfgTilt0
          (dfAlbedoOneRow.rows.getD 0 irDefault).t (dfAlbedoOneRow.rows.getD 0 irDefault).dhi
          (dfAlbedoOneRow.rows.getD 0 irDefault).dni :=
  ⟨by simp [dfAlbedoOneRow],
   dhi_poa_via_perez_not_isotropic.1 pvPerez42 cfgTilt0 dfAlbedoOneRow 0
     (by simp [dfAlbedoOneRow])⟩

/-- Claim C10: irradiance_df_to_poa_df returns the input table augmented
with the dni_poa, dhi_poa, ghi_poa and poa columns while leaving every
pre-existing column (timestamp index, dni, dhi, ghi, albedo and the
weather columns) unchanged row for row, preserving the number of rows,
their order and the albedo-column flag. -/
theorem poa_df_preserves_input_columns (pv : Pvlib) (cfg : Config) (df : IrrDF) :
    (irradiance_df_to_poa_df pv cfg df).hasAlbedo = df.hasAlbedo ∧
    (irradiance_df_to_poa_df pv cfg df).rows.length = df.rows.length ∧
    (irradiance_df_to_poa_df pv cfg df).rows.map PoaRow.t = df.rows.map IrrRow.t ∧
    (irradiance_df_to_poa_df pv cfg df).rows.map PoaRow.dni = df.rows.map IrrRow.dni ∧
    (irradiance_df_to_poa_df pv cfg df).rows.map PoaRow.dhi = df.rows.map IrrRow.dhi ∧
    (irradiance_df_to_poa_df pv cfg df).rows.map PoaRow.ghi = df.rows.map IrrRow.ghi ∧
    (irradiance_df_to_poa_df pv cfg df).rows.map PoaRow.albedo = df.rows.map IrrRow.albedo ∧
    (irradiance_df_to_poa_df pv cfg df).rows.map PoaRow.T = df.rows.map IrrRow.T ∧
    (irradiance_df_to_poa_df pv cfg df).rows.map PoaRow.wind = df.rows.map IrrRow.wind ∧
    (irradiance_df_to_poa_df pv cfg df).rows.map PoaRow.cloud_cover
      = df.rows.map IrrRow.cloud_cover ∧
    (irradiance_df_to_poa_df pv cfg df).rows.map PoaRow.dni_poa
      = df.rows.map (fun r => project_dni_to_panel_surface_using_time_fast pv cfg r.dni r.t) ∧
    (irradiance_df_to_poa_df pv cfg df).rows.map PoaRow.dhi_poa
      = df.rows.map (fun r => project_dhi_to_panel_surface_perez_fast pv cfg r.t r.dhi r.dni) ∧
    (irradiance_df_to_poa_df pv cfg df).rows.map PoaRow.poa
      = (irradiance_df_to_poa_df pv cfg df).rows.map
          (fun r => r.dhi_poa + r.dni_poa + r.ghi_poa) := by
  unfold irradiance_df_to_poa_df
  refine ⟨rfl, by simp, ?_, ?_, ?_, ?_, ?_, ?_, ?_, ?_, ?_, ?_, ?_⟩ <;>
    simp [List.map_map, Function.comp]

/-- Python runtime errors relevant to the embedded call semantics. -/
inductive PyError where
  | typeError
  | valueError
deriving DecidableEq

/-- Positional-parameter signature of a Python function definition. -/
structure PyDef where
  posParams : ℕ

/-- Signature of astronomical_calculations.get_solar_angle_of_incidence_fast,
defined on line 34 with the single parameter dt. -/
def get_solar_angle_of_incidence_fast_sig : PyDef := { posParams := 1 }

/-- Signature of astronomical_calculations.get_solar_azimuth_zenit_fast,
defined on line 70 with the single parameter dt. -/
def get_solar_azimuth_zenit_fast_sig : PyDef := { posParams := 1 }

/-- Signature of astronomical_calculations.get_air_mass_fast, defined on
line 58 with the single parameter time. -/
def get_air_mass_fast_sig : PyDef := { posParams := 1 }

/-- Python positional call semantics: calling a function whose definition
takes posParams positional parameters with nargs positional arguments
returns the body's value when the counts agree and raises TypeError
otherwise. -/
def callPy {α : Type} (f : PyDef) (nargs : ℕ) (result : α) : Except PyError α :=
  if nargs = f.posParams then .ok result else .error .typeError

/-- Runtime behaviour of __project_dni_to_panel_surface_using_time_fast on
whole columns: line 88 of irradiance_transpositions.py invokes
get_solar_angle_of_incidence_fast with the two positional arguments
(config, dt); on success the absolute angle-based projection would be
taken elementwise. -/
noncomputable def project_dni_to_panel_surface_using_time_fast_run
    (pv : Pvlib) (cfg : Config) (dniCol : List ℝ) (dtCol : List ℤ) :
    Except PyError (List ℝ) := do
  let aoiCol ← callPy get_solar_angle_of_incidence_fast_sig 2
    (dtCol.map (get_solar_angle_of_incidence_fast pv cfg))
  pure (List.zipWith
    (fun dni aoi => |project_dni_to_panel_surface_using_angle dni aoi|) dniCol aoiCol)

/-- Runtime behaviour of __project_dhi_to_panel_surface_perez_fast on whole
columns: lines 135 and 138 of irradiance_transpositions.py invoke
get_solar_azimuth_zenit_fast and get_air_mass_fast with the two positional
arguments (config, time); on success the Perez oracle would be applied
elementwise. -/
noncomputable def project_dhi_to_panel_surface_perez_fast_run
    (pv : Pvlib) (cfg : Config) (dtCol : List ℤ) (dhiCol dniCol : List ℝ) :
    Except PyError (List ℝ) := do
  let dniExtraCol := dtCol.map pv.getExtraRadiation
  let azZenCol ← callPy get_solar_azimuth_zenit_fast_sig 2
    (dtCol.map (get_solar_azimuth_zenit_fast pv cfg))
  let airmassCol ← callPy get_air_mass_fast_sig 2
    (dtCol.map (get_air_mass_fast pv cfg))
  pure ((azZenCol.zip (airmassCol.zip (dniExtraCol.zip (dhiCol.zip dniCol)))).map
    (fun x => pv.perez cfg.tilt cfg.azimuth x.2.2.2.1 x.2.2.2.2 x.2.2.1 x.1.2 x.1.1 x.2.1))

/-- Runtime behaviour of irradiance_df_to_poa_df: the dni_poa column is
computed first, then the dhi_poa column, then ghi_poa and the poa sum; the
two column computations are the vectorized helper calls of lines 53-58,
which happen before any row is assembled. -/
noncomputable def irradiance_df_to_poa_df_run
    (pv : Pvlib) (cfg : Config) (df : IrrDF) : Except PyError PoaDF := do
  let dtCol := df.rows.map IrrRow.t
  let dniPoaCol ← project_dni_to_panel_surface_using_time_fast_run pv cfg
    (df.rows.map IrrRow.dni) dtCol
  let dhiPoaCol ← project_dhi_to_panel_surface_perez_fast_run pv cfg dtCol
    (df.rows.map IrrRow.dhi) (df.rows.map IrrRow.dni)
  let ghiPoaCol := df.rows.map (fun r =>
    if df.hasAlbedo then project_ghi_to_panel_surface r.ghi r.albedo cfg.tilt
    else project_ghi_to_panel_surface r.ghi cfg.albedo cfg.tilt)
  pure { hasAlbedo := df.hasAlbedo
         rows := (df.rows.zip (dniPoaCol.zip (dhiPoaCol.zip ghiPoaCol))).map
           (fun rc =>
             { t := rc.1.t, dni := rc.1.dni, dhi := rc.1.dhi, ghi := rc.1.ghi,
               albedo := rc.1.albedo, T := rc.1.T, wind := rc.1.wind,
               cloud_cover := rc.1.cloud_cover,
               dni_poa := rc.2.1, dhi_poa := rc.2.2.1, ghi_poa := rc.2.2.2,
               poa := rc.2.2.1 + rc.2.1 + rc.2.2.2 }) }

/-- Claim C1: for every input dataframe, configuration and behaviour of the
external collaborators, running irradiance_df_to_poa_df raises TypeError
and never returns normally: the three astronomical helpers are defined
with a single positional parameter yet are invoked with the two positional
arguments (config, datetime), so each such call is ill-arity. -/
theorem irradiance_df_to_poa_df_run_always_type_error
    (pv : Pvlib) (cfg : Config) (df : IrrDF) :
    irradiance_df_to_poa_df_run pv cfg df = .error .typeError ∧
    get_solar_angle_of_incidence_fast_sig.posParams = 1 ∧
    get_solar_azimuth_zenit_fast_sig.posParams = 1 ∧
    get_air_mass_fast_sig.posParams = 1 ∧
    (∀ c : List ℝ, callPy get_solar_angle_of_incidence_fast_sig 2 c = .error .typeError) ∧
    (∀ c : List (ℝ × ℝ), callPy get_solar_azimuth_zenit_fast_sig 2 c = .error .typeError) ∧
    (∀ c : List ℝ, callPy get_air_mass_fast_sig 2 c = .error .typeError) := by
  refine ⟨?_, rfl, rfl, rfl, ?_, ?_, ?_⟩
  · rfl
  all_goals intro c; rfl

/-- NaN-aware float value: some x is an ordinary float of value x, none is
IEEE NaN. -/
def PyFloat : Type := Option ℝ

/-- NaN-propagating multiplication of numpy/pandas floats. -/
def pyMul (a b : PyFloat) : PyFloat := a.bind (fun x => b.map (fun y => x * y))

/-- NaN-propagating numpy.cos. -/
noncomputable def pyCos (a : PyFloat) : PyFloat := a.map Real.cos

/-- NaN-propagating numpy.radians. -/
noncomputable def pyRadians (a : PyFloat) : PyFloat := a.map radians

/-- NaN-propagating numpy.abs. -/
def pyAbs (a : PyFloat) : PyFloat := a.map (fun x => |x|)

/-- NaN-propagating pandas clip(lower=0, upper=90): NaN entries stay NaN. -/
def pyClip0to90 (a : PyFloat) : PyFloat := a.map clip0to90

/-- NaN-aware __project_dni_to_panel_surface_using_angle:
dni * cos(radians(aoi)) over NaN-propagating float operations. -/
noncomputable def project_dni_to_panel_surface_using_angle_nan (dni aoi : PyFloat) : PyFloat :=
  pyMul dni (pyCos (pyRadians aoi))

/-- NaN-aware __project_dni_to_panel_surface_using_time_fast: numpy.abs of
the angle-based projection at the clipped raw angle of incidence (aoiRaw
stands for the pvlib irradiance.aoi output for the row's instant). -/
noncomputable def project_dni_to_panel_surface_using_time_fast_nan (dni aoiRaw : PyFloat) : PyFloat :=
  pyAbs (project_dni_to_panel_surface_using_angle_nan dni (pyClip0to90 aoiRaw))

/-- NaN-aware __project_ghi_to_panel_surface:
ghi * albedo * ((1 - cos(radians(tilt))) / 2) over NaN-propagating float
operations. -/
noncomputable def project_ghi_to_panel_surface_nan (ghi albedo tilt : PyFloat) : PyFloat :=
  pyMul (pyMul ghi albedo) (tilt.map (fun x => (1.0 - Real.cos (radians x)) / 2))

/-- Counterexample to claim C6: a negative dni input does not put NaN into
dni_poa — at dni = -100 with raw angle of incidence 0 the projection
returns the ordinary float 100, a sign-flipped finite value; likewise a
negative ghi input yields an ordinary (non-NaN) float. -/
theorem negative_irradiance_yields_finite_not_nan :
    project_dni_to_panel_surface_using_time_fast_nan (some (-100)) (some 0) = some 100 ∧
    (project_ghi_to_panel_surface_nan (some (-1000)) (some 0.2) (some 30)).isSome = true := by
  constructor
  · unfold project_dni_to_panel_surface_using_time_fast_nan
      project_dni_to_panel_surface_using_angle_nan pyAbs pyMul pyCos pyRadians pyClip0to90
      clip0to90 radians
    norm_num [Option.bind, Real.cos_zero]
  · unfold project_ghi_to_panel_surface_nan pyMul
    simp [Option.bind]

/-- Claim C6 as amended: a negative input irradiance produces an ordinary
finite float, not NaN — the dni projection returns
abs(dni * cos(radians(clipped aoi))) (so a negative dni is sign-flipped to
a non-negative output) and the ghi projection returns
ghi * albedo * (1 - cos(radians(tilt))) / 2 (negative when ghi is negative
and the factors are positive); NaN appears in a projected column only when
an input to the projection is itself NaN, which then propagates. -/
theorem negative_irradiance_projection_behaviour (dni aoiRaw ghi albedo tilt : ℝ) :
    project_dni_to_panel_surface_using_time_fast_nan (some dni) (some aoiRaw)
      = some |dni * Real.cos (radians (clip0to90 aoiRaw))| ∧
    project_ghi_to_panel_surface_nan (some ghi) (some albedo) (some tilt)
      = some (ghi * albedo * ((1.0 - Real.cos (radians tilt)) / 2)) ∧
    project_dni_to_panel_surface_using_time_fast_nan none (some aoiRaw) = none ∧
    project_dni_to_panel_surface_using_time_fast_nan (some dni) none = none ∧
    project_ghi_to_panel_surface_nan none (some albedo) (some tilt) = none := by
  refine ⟨rfl, rfl, rfl, rfl, rfl⟩

/-- Final-table row observed by the callers of main.py: timestamp and the
output column, with none standing for a NaN output value. -/
structure OutRow where
  t : ℤ
  output : Option ℝ

/-- A pipeline table as seen at the boundary of main.py, projected to the
timestamp and output columns relevant to the NaN-dropping behaviour. -/
abbrev Table : Type := List OutRow

/-- Oracle bundle for the pipeline step functions invoked by main.py.
The irradiance estimator, the transposition step, the two reflection
steps, the wind/temperature steps, the panel-temperature step and the
output step live in repository modules outside the embedded sources and
in irradiance_transpositions; each is modelled as an uninterpreted
function receiving the shared configuration object (standing for whatever
configuration fields it reads) and the evolving table, and possibly
raising. -/
structure PipeSteps where
  get_solar_irradiance_fmi : Config → Except PyError Table
  get_solar_irradiance_pvlib : Config → Except PyError Table
  irradiance_to_poa : Config → Table → Except PyError Table
  add_reflection_corrected_poa_components : Config → Table → Except PyError Table
  add_reflection_corrected_poa : Config → Table → Except PyError Table
  add_wind_and_temp_from_donor : Table → Table → Except PyError Table
  add_dummy_wind_and_temp : Config → Table → Except PyError Table
  add_estimated_panel_temperature : Config → Table → Except PyError Table
  add_output : Config → Table → Except PyError Table

/-- The six pipeline steps of main.get_fmi_data (lines 154-170), run with
the shared configuration object. -/
def runFmiPipeline (s : PipeSteps) (cfg : Config) : Except PyError Table := do
  let d1 ← s.get_solar_irradiance_fmi cfg
  let d2 ← s.irradiance_to_poa cfg d1
  let d3 ← s.add_reflection_corrected_poa_components cfg d2
  let d4 ← s.add_reflection_corrected_poa cfg d3
  let d5 ← s.add_estimated_panel_temperature cfg d4
  s.add_output cfg d5

/-- main.get_fmi_data (lines 136-174): saves the configured
data_resolution, sets the shared field to 60, runs the six pipeline steps
against the mutated configuration, and assigns the saved value back only
after the last step has returned; the second component is the state of the
shared configuration object when the call ends, whether normally or by a
propagating exception. No dropna is applied to the returned table. -/
def get_fmi_data (s : PipeSteps) (cfg : Config) : Except PyError Table × Config :=
  let original_data_resolution := cfg.data_resolution
  let cfg60 : Config := { cfg with data_resolution := 60 }
  match runFmiPipeline s cfg60 with
  | .ok data => (.ok data, { cfg60 with data_resolution := original_data_resolution })
  | .error e => (.error e, cfg60)

/-- pandas dropna restricted to the observed columns: rows whose output
value is NaN are removed. -/
def dropna (t : Table) : Table := t.filter (fun r => r.output.isSome)

/-- main.get_pvlib_data (lines 177-216): the pvlib irradiance steps, the
donor or dummy wind/temperature branch depending on whether an fmi table
is supplied, panel temperature, output, and finally dropna on the result.
The configuration object is never assigned to. -/
def get_pvlib_data (s : PipeSteps) (cfg : Config) (data_fmi : Option Table) :
    Except PyError Table := do
  let d1 ← s.get_solar_irradiance_pvlib cfg
  let d2 ← s.irradiance_to_poa cfg d1
  let d3 ← s.add_reflection_corrected_poa_components cfg d2
  let d4 ← s.add_reflection_corrected_poa cfg d3
  let d5 ← (match data_fmi with
    | some dfmi => s.add_wind_and_temp_from_donor d4 dfmi
    | none => s.add_dummy_wind_and_temp cfg d4)
  let d6 ← s.add_estimated_panel_temperature cfg d5
  let d7 ← s.add_output cfg d6
  pure (dropna d7)

/-- Inversion of a successful Except bind: the first computation succeeded
and its value drives the continuation to the same result. -/
theorem ok_of_bind {α β : Type} {x : Except PyError α} {f : α → Except PyError β} {b : β}
    (h : x >>= f = .ok b) : ∃ a, x = .ok a ∧ f a = .ok b := by
  cases x with
  | error e => simp [Bind.bind, Except.bind] at h
  | ok a => exact ⟨a, rfl, by simpa [Bind.bind, Except.bind] using h⟩

/-- Step oracle on which every pipeline stage fails, standing for any run
in which a step raises (for instance the unconditional TypeError of the
transposition step, or a network failure in the irradiance fetch). -/
def failSteps : PipeSteps :=
  { get_solar_irradiance_fmi := fun _ => .error .valueError
    get_solar_irradiance_pvlib := fun _ => .error .valueError
    irradiance_to_poa := fun _ _ => .error .valueError
    add_reflection_corrected_poa_components := fun _ _ => .error .valueError
    add_reflection_corrected_poa := fun _ _ => .error .valueError
    add_wind_and_temp_from_donor := fun _ _ => .error .valueError
    add_dummy_wind_and_temp := fun _ _ => .error .valueError
    add_estimated_panel_temperature := fun _ _ => .error .valueError
    add_output := fun _ _ => .error .valueError }

/-- Step oracle on which every stage succeeds and passes the table through,
the irradiance fetch producing the empty table. -/
def okSteps : PipeSteps :=
  { get_solar_irradiance_fmi := fun _ => .ok []
    get_solar_irradiance_pvlib := fun _ => .ok []
    irradiance_to_poa := fun _ t => .ok t
    add_reflection_corrected_poa_components := fun _ t => .ok t
    add_reflection_corrected_poa := fun _ t => .ok t
    add_wind_and_temp_from_donor := fun t _ => .ok t
    add_dummy_wind_and_temp := fun _ t => .ok t
    add_estimated_panel_temperature := fun _ t => .ok t
    add_output := fun _ t => .ok t }

/-- Configuration whose data_resolution is 15 before the call, used to
observe the missing restore. -/
noncomputable def cfgRes15 : Config := { cfgDefault with data_resolution := 15 }

/-- Counterexample to claim C8: when a pipeline step inside get_fmi_data
fails, the shared configuration is left with data_resolution = 60 — the
restore on line 172 of main.py is skipped because there is no try/finally —
so with the pre-call value 15 the post-call value is 60, not 15. -/
theorem get_fmi_data_no_restore_on_failure :
    (get_fmi_data failSteps cfgRes15).1 = .error .valueError ∧
    (get_fmi_data failSteps cfgRes15).2.data_resolution = 60 ∧
    cfgRes15.data_resolution = 15 :=
  ⟨rfl, rfl, rfl⟩

/-- Claim C8 as amended: get_fmi_data runs the pipeline against the shared
configuration with data_resolution set to 60 and, on normal completion,
returns with the configuration restored exactly to its pre-call value (no
other field is ever mutated); but when a pipeline step raises, the
exception propagates with the restore skipped, leaving data_resolution at
60 while every other field is still unchanged. -/
theorem get_fmi_data_resolution_save_restore (s : PipeSteps) (cfg : Config) :
    (∀ d : Table, (get_fmi_data s cfg).1 = .ok d → (get_fmi_data s cfg).2 = cfg) ∧
    (∀ e : PyError, (get_fmi_data s cfg).1 = .error e →
      (get_fmi_data s cfg).2 = { cfg with data_resolution := 60 }) ∧
    (get_fmi_data s cfg).2.latitude = cfg.latitude ∧
    (get_fmi_data s cfg).2.longitude = cfg.longitude ∧
    (get_fmi_data s cfg).2.tilt = cfg.tilt ∧
    (get_fmi_data s cfg).2.azimuth = cfg.azimuth ∧
    (get_fmi_data s cfg).2.rated_power = cfg.rated_power ∧
    (get_fmi_data s cfg).2.albedo = cfg.albedo ∧
    (get_fmi_data s cfg).2.module_elevation = cfg.module_elevation ∧
    (get_fmi_data s cfg).2.wind_speed = cfg.wind_speed ∧
    (get_fmi_data s cfg).2.air_temp = cfg.air_temp := by
  cases h : runFmiPipeline s { cfg with data_resolution := 60 } with
  | ok data =>
    have hval : get_fmi_data s cfg = (.ok data, cfg) := by
      simp [get_fmi_data, h]
    rw [hval]
    exact ⟨fun d hd => rfl, fun e he => by simp at he, rfl, rfl, rfl, rfl, rfl, rfl, rfl, rfl, rfl⟩
  | error e =>
    have hval : get_fmi_data s cfg = (.error e, { cfg with data_resolution := 60 }) := by
      simp [get_fmi_data, h]
    rw [hval]
    exact ⟨fun d hd => by simp at hd, fun e' he' => rfl, rfl, rfl, rfl, rfl, rfl, rfl, rfl, rfl, rfl⟩

/-- Witness for claim C8 (amended): on the all-succeeding step oracle the
call returns normally and the configuration object is restored exactly to
cfgDefault. -/
theorem get_fmi_data_resolution_save_restore_witness :
    (get_fmi_data okSteps cfgDefault).1 = .ok [] ∧
    (get_fmi_data okSteps cfgDefault).2 = cfgDefault :=
  ⟨rfl, (get_fmi_data_resolution_save_restore okSteps cfgDefault).1 [] rfl⟩

/-- Step oracle whose output stage produces a single row with NaN output,
standing for a run in which some timestamp's output is unresolvable. -/
def nanRowSteps : PipeSteps :=
  { okSteps with add_output := fun _ _ => .ok [{ t := 0, output := none }] }

/-- Counterexample to claim C9: get_fmi_data performs no NaN-row dropping —
when the output stage produces a row whose output value is NaN, that row
is present in the returned table. -/
theorem get_fmi_data_returns_nan_output_row :
    (get_fmi_data nanRowSteps cfgDefault).1 = .ok [{ t := 0, output := none }] ∧
    List.any [({ t := 0, output := none } : OutRow)] (fun r => r.output.isNone) = true :=
  ⟨rfl, rfl⟩

/-- Step oracle whose output stage produces a single row with a resolved
output value. -/
def keepRowSteps : PipeSteps :=
  { okSteps with add_output := fun _ _ => .ok [{ t := 0, output := some 5 }] }

/-- Claim C9 as amended: the lossy NaN-row dropping belongs to the
clear-sky path, not the FMI path — every table returned normally by
get_pvlib_data contains no row with NaN output (its final dropna), while
get_fmi_data applies no such filter and can return a table containing a
NaN-output row. -/
theorem nan_rows_dropped_in_pvlib_not_in_fmi
    (s : PipeSteps) (cfg : Config) (data_fmi : Option Table) :
    (∀ tb : Table, get_pvlib_data s cfg data_fmi = .ok tb →
      tb.all (fun r => r.output.isSome) = true) ∧
    (get_fmi_data nanRowSteps cfg).1 = .ok [{ t := 0, output := none }] := by
  constructor
  · intro tb htb
    unfold get_pvlib_data at htb
    obtain ⟨d1, h1, htb⟩ := ok_of_bind htb
    obtain ⟨d2, h2, htb⟩ := ok_of_bind htb
    obtain ⟨d3, h3, htb⟩ := ok_of_bind htb
    obtain ⟨d4, h4, htb⟩ := ok_of_bind htb
    obtain ⟨d5, h5, htb⟩ := ok_of_bind htb
    obtain ⟨d6, h6, htb⟩ := ok_of_bind htb
    obtain ⟨d7, h7, htb⟩ := ok_of_bind htb
    have htb' : dropna d7 = tb := by simpa [pure, Except.pure] using htb
    subst htb'
    simp only [dropna, List.all_eq_true]
    intro r hr
    exact (List.mem_filter.mp hr).2
  · rfl

/-- Witness for claim C9 (amended): applying the no-NaN-output guarantee of
get_pvlib_data to the concrete run whose output stage yields one resolved
row. -/
theorem nan_rows_dropped_in_pvlib_not_in_fmi_witness :
    ([({ t := 0, output := some 5 } : OutRow)] : Table).all (fun r => r.output.isSome) = true :=
  (nan_rows_dropped_in_pvlib_not_in_fmi keepRowSteps cfgDefault none).1
    [{ t := 0, output := some 5 }] rfl

end PVForecast
